import Mathlib

/-!
Shallow embedding of the kebapi server's request-authorization pipeline:
the role enumeration (roles.js), the action permission registry (api.js,
tests.js), token verification (auth.js), the router, and the permission
evaluation of the HTTP request handler (server.js).
-/

/-- JavaScript runtime values as far as the authorization pipeline inspects
them: numbers, strings and `undefined`. -/
inductive JSValue where
  | num (n : Int)
  | str (s : String)
  | undef
deriving DecidableEq, Repr

/-- Splits a character list at every occurrence of `c`, keeping empty pieces.
Models how the `m` (multiline) regex flag makes `^`/`$` anchor at
newline-delimited lines. -/
def splitOnChar (c : Char) : List Char → List (List Char)
  | [] => [[]]
  | x :: xs =>
    match splitOnChar c xs with
    | [] => [[]]
    | l :: ls => if x = c then [] :: l :: ls else (x :: l) :: ls

/-- Embedding of `isIdFormat` (server.js): true for every value of number
type; for a string, true when the multiline regex `^[0-9]*$` matches, i.e.
when some newline-delimited line of the string consists only of digits
(possibly zero digits); false for anything else, `undefined` included. -/
def isIdFormat : JSValue → Bool
  | .num _ => true
  | .str s => (splitOnChar '\n' s.data).any (fun l => l.all Char.isDigit)
  | .undef => false

/-- The check `isIdFormat` applied to a possibly absent path segment (absent segments
are `undefined` in JS). -/
def isIdFormatSeg : Option String → Bool
  | some s => isIdFormat (.str s)
  | none => false

/-- Decimal value of a list of digit characters. -/
def digitsVal (ds : List Char) : Nat :=
  ds.foldl (fun a c => 10 * a + (c.toNat - Char.toNat '0')) 0

/-- Embedding of JavaScript `parseInt(s, 10)` on a string: skip leading
whitespace, optional sign, then the longest digit prefix; `none` models
`NaN` (no digits). -/
def parseIntStr (s : String) : Option Int :=
  let cs := s.data.dropWhile (fun c => c == ' ' || c == '\t' || c == '\n' || c == '\r')
  match cs with
  | '-' :: rest =>
    let ds := rest.takeWhile Char.isDigit
    if ds.isEmpty then none else some (-(digitsVal ds : Int))
  | '+' :: rest =>
    let ds := rest.takeWhile Char.isDigit
    if ds.isEmpty then none else some ((digitsVal ds : Int))
  | _ =>
    let ds := cs.takeWhile Char.isDigit
    if ds.isEmpty then none else some ((digitsVal ds : Int))

/-- JavaScript `parseInt(v, 10)` on a runtime value: a number is converted to
its decimal string and re-parsed (the identity on integers); `undefined`
gives `NaN` (`none`). -/
def parseIntJs : JSValue → Option Int
  | .num n => some n
  | .str s => parseIntStr s
  | .undef => none

/-- JavaScript strict equality `a === b` where `b` is the number produced by
`parseInt` (`none` models `NaN`, which is strictly equal to nothing; a string
is never strictly equal to a number). -/
def strictEqNum (a : JSValue) (b : Option Int) : Bool :=
  match a, b with
  | .num n, some m => n == m
  | _, _ => false

/-- Role enumeration (roles.js): lower numeric value = higher privilege. -/
def Role.ADMIN : Nat := 0

/-- Role enumeration (roles.js). -/
def Role.USER : Nat := 1

/-- Role enumeration (roles.js): resource not restricted. -/
def Role.EVERYONE : Nat := 99

/-- Response envelope produced by `formatResult` (api.js). -/
structure Envelope where
  responseCode : Nat
  responseStatus : String
  response : String
deriving DecidableEq, Repr

/-- Status-label switch of `formatResult` (api.js). -/
def responseStatusOf (code : Nat) : String :=
  if code = 200 then "OK"
  else if code = 400 then "Bad Request"
  else if code = 401 then "Unauthorised"
  else if code = 403 then "Forbidden"
  else if code = 404 then "Not Found"
  else if code = 413 then "Payload Too Large"
  else if code = 500 then "Internal Server Error"
  else "Unknown"

/-- Embedding of `formatResult` (api.js). -/
def formatResult (responseCode : Nat) (result : String) : Envelope :=
  ⟨responseCode, responseStatusOf responseCode, result⟩

/-- Response helper (api.js). -/
def responseBadRequest (msg : String) : Envelope := formatResult 400 msg

/-- Response helper (api.js). -/
def responseUnauthorised (msg : String) : Envelope := formatResult 401 msg

/-- Response helper (api.js). -/
def responseForbidden (msg : String) : Envelope := formatResult 403 msg

/-- Response helper (api.js). -/
def responseNotFound (msg : String) : Envelope := formatResult 404 msg

/-- Response helper (api.js). -/
def responseInternalServerError (msg : String) : Envelope := formatResult 500 msg

/-- Permission metadata attached to an Action function (api.js `initialise`):
a field is `none` when the corresponding property was never set. -/
structure ActMeta where
  minRole : Option Nat
  hasOwner : Option Bool
deriving DecidableEq, Repr

/-- One entry of the permission registration table. -/
structure RegEntry where
  name : String
  meta : ActMeta
deriving DecidableEq, Repr

/-- The permission table registered at startup by api.js `initialise`. -/
def permissions : List RegEntry := [
  ⟨"deactivateUser", ⟨some Role.ADMIN, some true⟩⟩,
  ⟨"activateUser", ⟨some Role.ADMIN, some true⟩⟩,
  ⟨"getUserAccountStatus", ⟨some Role.ADMIN, some true⟩⟩,
  ⟨"getUserRole", ⟨some Role.ADMIN, some true⟩⟩,
  ⟨"resetTestDB", ⟨some Role.ADMIN, some false⟩⟩,
  ⟨"getHash", ⟨some Role.ADMIN, some false⟩⟩,
  ⟨"getToken", ⟨some Role.ADMIN, some false⟩⟩,
  ⟨"verifyToken", ⟨some Role.ADMIN, some false⟩⟩,
  ⟨"getUsers", ⟨some Role.ADMIN, some false⟩⟩,
  ⟨"getUser", ⟨some Role.USER, some true⟩⟩,
  ⟨"getUserFavourites", ⟨some Role.USER, some true⟩⟩,
  ⟨"addUserFavourite", ⟨some Role.USER, some true⟩⟩,
  ⟨"removeUserFavourite", ⟨some Role.USER, some true⟩⟩,
  ⟨"getVenue", ⟨some Role.EVERYONE, some false⟩⟩,
  ⟨"getVenues", ⟨some Role.EVERYONE, some false⟩⟩,
  ⟨"loginUser", ⟨some Role.EVERYONE, some false⟩⟩,
  ⟨"registerUser", ⟨some Role.EVERYONE, some false⟩⟩,
  ⟨"responseBadRequest", ⟨some Role.EVERYONE, some false⟩⟩,
  ⟨"responseForbidden", ⟨some Role.EVERYONE, some false⟩⟩,
  ⟨"responseNotFound", ⟨some Role.EVERYONE, some false⟩⟩,
  ⟨"responsePayloadTooLarge", ⟨some Role.EVERYONE, some false⟩⟩,
  ⟨"responseInternalServerError", ⟨some Role.EVERYONE, some false⟩⟩]

/-- The permission table registered at startup by tests.js `initialise`. -/
def testsPermissions : List RegEntry := [
  ⟨"runAdminTests", ⟨some Role.ADMIN, some false⟩⟩]

/-- Every Action metadata registered before the server accepts requests. -/
def registry : List RegEntry := permissions ++ testsPermissions

/-- Looks up a registered Action's metadata by name. -/
def registryLookup (name : String) : Option ActMeta :=
  (registry.find? (fun e => e.name == name)).map RegEntry.meta

/-- Action argument object extracted by the Router: either `undefined` or an
object of named fields. -/
inductive Args where
  | undef
  | obj (fields : List (String × JSValue))
deriving DecidableEq, Repr

/-- Field access modelling `args.hasOwnProperty(k)` plus `args[k]`: `none`
when the field is absent (distinct from a field present with value
`undefined`). -/
def Args.getField : Args → String → Option JSValue
  | .undef, _ => none
  | .obj fs, k => (fs.find? (fun p => p.1 == k)).map Prod.snd

/-- Payload object carried inside a signed token: its `id` field, `none`
when the field is absent. -/
structure Payload where
  id : Option JSValue
deriving DecidableEq, Repr

/-- Outcome of the external `jwt.verify` primitive: a decoded payload, or a
rejection carrying the JS error's `name` and `message`. -/
inductive JwtResult where
  | ok (payload : Payload)
  | err (name message : String)
deriving DecidableEq, Repr

/-- Result object built by `verifyToken` (auth.js); optional fields are
spread in only when truthy. -/
structure VerifyResult where
  verified : Bool
  payload : Option Payload
  rejectReason : Option String
  rejectErrorType : Option String
deriving DecidableEq, Repr

/-- Either `verifyToken` returns a `VerifyResult` or rethrows the primitive's
error when its name is not one of the two expected rejection kinds. -/
inductive VerifyOutcome where
  | ret (r : VerifyResult)
  | thrown (name message : String)
deriving DecidableEq, Repr

/-- Embedding of `verifyToken` (auth.js) as a function of the verification
primitive's outcome: the two expected rejection kinds are recorded in the
result; any other failure is rethrown. -/
def verifyToken (jr : JwtResult) : VerifyOutcome :=
  match jr with
  | .ok p => .ret ⟨true, some p, none, none⟩
  | .err name msg =>
    if name == "JsonWebTokenError" || name == "TokenExpiredError" then
      .ret ⟨false, none, if msg == "" then none else some msg, some name⟩
    else
      .thrown name msg

/-- How `getIdFromToken` (server.js) terminates: the payload id, a
`CodedError` carrying its code, or a plain error without a code. -/
inductive IdOutcome where
  | ok (id : JSValue)
  | codedErr (code : String)
  | plainErr
deriving DecidableEq, Repr

/-- Embedding of `getIdFromToken` (server.js). -/
def getIdFromToken (v : VerifyOutcome) : IdOutcome :=
  match v with
  | .thrown _ _ => .plainErr
  | .ret r =>
    if r.verified then
      match r.payload with
      | some p =>
        match p.id with
        | some i => if isIdFormat i then .ok i else .codedErr "KE120"
        | none => .codedErr "KE120"
      | none => .plainErr
    else
      match r.rejectErrorType with
      | some "JsonWebTokenError" => .codedErr "KE122"
      | some "TokenExpiredError" => .codedErr "KE123"
      | _ => .plainErr

/-- A row of the `dal.getUserRole` result set. -/
structure RoleRow where
  id : Nat
deriving DecidableEq, Repr

/-- How `checkRoleGrantsPermissionForAction` (server.js) terminates. -/
inductive RoleCheckOutcome where
  | ok (hasPermission : Bool) (role : RoleRow)
  | codedErr (code : String)
deriving DecidableEq, Repr

/-- Embedding of `checkRoleGrantsPermissionForAction` (server.js), as a
function of the rows returned by the external role lookup. -/
def checkRoleGrantsPermissionForAction (roleResult : List RoleRow) (minRole : Nat) : RoleCheckOutcome :=
  match roleResult with
  | [] => .codedErr "KE130"
  | role :: _ => .ok ((role.id == Role.ADMIN) || decide (role.id ≤ minRole)) role

/-- How `checkOwnershipGrantsPermissionForAction` (server.js) terminates. -/
inductive OwnershipOutcome where
  | ok (hasPermission : Bool)
  | codedErr (code : String)
  | plainErr
deriving DecidableEq, Repr

/-- Embedding of `checkOwnershipGrantsPermissionForAction` (server.js). When
`args` is `undefined` the `hasOwnProperty` access itself throws a plain
TypeError. -/
def checkOwnershipGrantsPermissionForAction (id : JSValue) (hasOwner : Option Bool) (args : Args) : OwnershipOutcome :=
  match hasOwner with
  | none => .codedErr "KE110"
  | some false => .ok true
  | some true =>
    match args with
    | .undef => .plainErr
    | .obj _ =>
      match args.getField "id" with
      | none => .codedErr "KE111"
      | some v => .ok (strictEqNum id (parseIntJs v))

/-- Embedding of the failure condition of `getTokenFromRequest` (server.js): it throws KE140 when the designated
`x-access-token` header is absent or falsy (the empty string). -/
def tokenMissing : Option String → Bool
  | none => true
  | some s => s.isEmpty

/-- Terminal outcome of the permission-evaluation segment of the request
handler: either the Action's handler executes, or an error envelope is the
response. -/
inductive PipeOutcome where
  | execute
  | respond (e : Envelope)
deriving DecidableEq, Repr

/-- Embedding of the permission evaluation of the `http.createServer` handler
(server.js): metadata check, everyone short-circuit, token extraction, token
verification, role check, ownership check (skipped for an admin subject),
final gate. The parameters stand for the resolved Action's metadata and
args, the token request header, the JWT primitive's outcome for that token,
and the rows returned by the external role lookup. -/
def handlePermissions (meta : ActMeta) (args : Args) (header : Option String)
    (jr : JwtResult) (roleRows : List RoleRow) : PipeOutcome :=
  match meta.minRole with
  | none => .respond (responseInternalServerError "There is a misconfiguration problem on the server. Try again in a bit.")
  | some mr =>
    if mr == Role.EVERYONE then
      .execute
    else if tokenMissing header then
      .respond (responseUnauthorised "Missing an expected token.")
    else
      match getIdFromToken (verifyToken jr) with
      | .codedErr "KE120" => .respond (responseUnauthorised "Invalid token. Expected data missing from payload.")
      | .codedErr "KE122" => .respond (responseUnauthorised "Invalid token.")
      | .codedErr "KE123" => .respond (responseUnauthorised "Invalid token. You may need to log in again.")
      | .codedErr _ => .respond (responseInternalServerError "Error retrieving token information.")
      | .plainErr => .respond (responseInternalServerError "Error retrieving token information.")
      | .ok id =>
        match checkRoleGrantsPermissionForAction roleRows mr with
        | .codedErr _ => .respond (responseInternalServerError "Error checking role permissions.")
        | .ok hasRolePermission role =>
          if role.id == Role.ADMIN then
            if hasRolePermission then .execute
            else .respond (responseForbidden "You do not have permission to do that.")
          else
            match checkOwnershipGrantsPermissionForAction id meta.hasOwner args with
            | .codedErr _ => .respond (responseInternalServerError "Cannot verify ownership permissions.")
            | .plainErr => .respond (responseInternalServerError "Error checking ownership permissions.")
            | .ok hasOwnershipPermission =>
              if hasRolePermission && hasOwnershipPermission then .execute
              else .respond (responseForbidden "You do not have permission to do that.")

/-- Splits a URL pathname into its non-empty segments (server.js `route`):
`pathname.split("/")` splits at every slash, then the empty pieces are
filtered out. -/
def splitPath (p : String) : List String :=
  ((splitOnChar '/' p.data).map (fun cs => String.mk cs)).filter (fun v => v != "")

/-- A resolved route: the chosen Action's name and its extracted args. -/
structure Resolved where
  action : String
  args : Args
deriving DecidableEq, Repr

/-- The development-only GET routes (server.js `route`, first switch). A case
whose inner guard fails leaves the action unresolved (`none`). -/
def routeDevGet (segs : List String) : Option Resolved :=
  match segs.get? 0 with
  | some "gettoken" =>
    match segs.get? 1 with
    | some s => if isIdFormat (.str s) then some ⟨"getToken", .obj [("id", .str s)]⟩ else none
    | none => none
  | some "verifytoken" =>
    match segs.get? 1 with
    | some s => if s.isEmpty then none else some ⟨"verifyToken", .obj [("token", .str s)]⟩
    | none => none
  | some "gethash" =>
    match segs.get? 1 with
    | some s => if s.isEmpty then none else some ⟨"getHash", .obj [("value", .str s)]⟩
    | none => none
  | some "resettestdb" => some ⟨"resetTestDB", .obj []⟩
  | some "tests" =>
    match segs.get? 1 with
    | some "admin" => some ⟨"runAdminTests", .obj []⟩
    | _ => none
  | _ => none

/-- The general GET routes (server.js `route`, second switch). `query` is the
parsed query-string map passed through as args for the list endpoints. -/
def routeGet (segs : List String) (query : List (String × JSValue)) : Option Resolved :=
  match segs.get? 0 with
  | some "venues" =>
    match segs.get? 1 with
    | some s =>
      if isIdFormat (.str s) then some ⟨"getVenue", .obj [("id", .str s)]⟩
      else some ⟨"getVenues", .obj query⟩
    | none => some ⟨"getVenues", .obj query⟩
  | some "users" =>
    match segs.get? 1 with
    | some s =>
      if isIdFormat (.str s) then
        match segs.get? 2 with
        | some "favourites" => some ⟨"getUserFavourites", .obj [("id", .str s)]⟩
        | some "role" => some ⟨"getUserRole", .obj [("id", .str s)]⟩
        | some "status" => some ⟨"getUserAccountStatus", .obj [("id", .str s)]⟩
        | _ => some ⟨"getUser", .obj [("id", .str s)]⟩
      else some ⟨"getUsers", .obj query⟩
    | none => some ⟨"getUsers", .obj query⟩
  | _ => none

/-- The POST routes (server.js `route`, third switch). -/
def routePost (segs : List String) (postData : Args) : Option Resolved :=
  match segs.get? 0 with
  | some "users" =>
    match segs.get? 1 with
    | some "login" => some ⟨"loginUser", postData⟩
    | some "register" => some ⟨"registerUser", postData⟩
    | some s =>
      if isIdFormat (.str s) then
        match segs.get? 2 with
        | some "favourites" =>
          match segs.get? 3 with
          | some t =>
            if isIdFormat (.str t) then
              some ⟨"addUserFavourite", .obj [("id", .str s), ("venueId", .str t)]⟩
            else none
          | none => none
        | _ => some ⟨"activateUser", .obj [("id", .str s)]⟩
      else none
    | none => none
  | _ => none

/-- The DELETE routes (server.js `route`, fourth switch). -/
def routeDelete (segs : List String) : Option Resolved :=
  match segs.get? 0 with
  | some "users" =>
    match segs.get? 1 with
    | some s =>
      if isIdFormat (.str s) then
        match segs.get? 2 with
        | some "favourites" =>
          match segs.get? 3 with
          | some t =>
            if isIdFormat (.str t) then
              some ⟨"removeUserFavourite", .obj [("id", .str s), ("venueId", .str t)]⟩
            else none
          | none => none
        | _ => some ⟨"deactivateUser", .obj [("id", .str s)]⟩
      else none
    | none => none
  | _ => none

/-- Embedding of `route` (server.js): the switch blocks are tried in order,
the first resolution wins, and an unmatched request defaults to the NotFound
pseudo-Action with `undefined` args. -/
def route (dev : Bool) (method : String) (segs : List String)
    (query : List (String × JSValue)) (postData : Args) : Resolved :=
  let r1 := if dev && (method == "GET") then routeDevGet segs else none
  let r2 := match r1 with
    | some a => some a
    | none => if method == "GET" then routeGet segs query else none
  let r3 := match r2 with
    | some a => some a
    | none => if method == "POST" then routePost segs postData else none
  let r4 := match r3 with
    | some a => some a
    | none => if method == "DELETE" then routeDelete segs else none
  match r4 with
  | some a => a
  | none => ⟨"responseNotFound", .undef⟩

/-- Config default (config.js): token signing secret. -/
def KEBAPI_AUTH_SECRET : String := "c0876970129d079ea69c96c30475b557"

/-- Config default (config.js): token expiry duration. -/
def KEBAPI_AUTH_TOKEN_EXPIRY_MS : Nat := 86400

/-- Modelled from the spec: the external JSON Web Token primitive (the
`jsonwebtoken` library, not part of this repository). A signed token binds a
payload, the signing secret and an absolute expiry instant. -/
structure SignedToken where
  payload : Payload
  secret : String
  expiry : Nat
deriving DecidableEq, Repr

/-- Modelled from the spec: `jwt.sign(payload, secret, expiresIn)` issued at
instant `now` produces a token expiring at `now + expiresIn`. -/
def jwtSign (p : Payload) (secret : String) (expiresIn now : Nat) : SignedToken :=
  ⟨p, secret, now + expiresIn⟩

/-- Modelled from the spec: `jwt.verify(token, secret)` evaluated at instant
`now`: signature validation then expiry validation, rejections carrying the
library's error names. -/
def jwtVerify (t : SignedToken) (secret : String) (now : Nat) : JwtResult :=
  if t.secret ≠ secret then .err "JsonWebTokenError" "invalid signature"
  else if t.expiry ≤ now then .err "TokenExpiredError" "jwt expired"
  else .ok t.payload

/-- Embedding of `getToken` (auth.js): signs a payload holding `id` with the
configured secret and expiry. -/
def getToken (id : JSValue) (now : Nat) : SignedToken :=
  jwtSign ⟨some id⟩ KEBAPI_AUTH_SECRET KEBAPI_AUTH_TOKEN_EXPIRY_MS now

/-- Embedding of `verifyToken` (auth.js) applied to a concrete signed token at a concrete
instant, through the modelled primitive. -/
def verifyTokenAt (t : SignedToken) (now : Nat) : VerifyOutcome :=
  verifyToken (jwtVerify t KEBAPI_AUTH_SECRET now)

/-!
Theorems settling the claims, with shared auxiliary lemmas first.
-/

/-- The spec's `Covers` relation on roles: the candidate covers the required
role iff it is the top role or its numeric value is at most the required
role's numeric value. -/
def Covers (r1 r2 : Nat) : Prop := r1 = Role.ADMIN ∨ r1 ≤ r2

/-- The enumerated role set. -/
def roleSet : List Nat := [Role.ADMIN, Role.USER, Role.EVERYONE]

/-- In the registered tables, every owner-scoped Action requires at least the
USER role, so its minimum role is never the unrestricted level. -/
lemma registry_owner_minRole :
    ∀ e ∈ registry, e.meta.hasOwner = some true →
      e.meta.minRole = some Role.ADMIN ∨ e.meta.minRole = some Role.USER := by
  decide

/-- Strict equality against a parseInt result is false whenever the two
values disagree under parseInt. -/
lemma strictEqNum_parseInt_ne (a b : JSValue) (h : parseIntJs a ≠ parseIntJs b) :
    strictEqNum a (parseIntJs b) = false := by
  cases a with
  | str s => rfl
  | undef => rfl
  | num n =>
    cases hb : parseIntJs b with
    | none => rfl
    | some m =>
      by_cases hnm : n = m
      · subst hnm
        exact absurd (by rw [hb]; rfl) h
      · simp [strictEqNum, hnm]

/-- Strict equality against a parseInt result holds exactly when the left
value is a number with the parsed value. -/
lemma strictEqNum_eq_true_iff (a : JSValue) (b : Option Int) :
    strictEqNum a b = true ↔ ∃ n : Int, a = .num n ∧ b = some n := by
  cases a with
  | num n =>
    cases b with
    | some m =>
      constructor
      · intro h
        have hnm : n = m := by simpa [strictEqNum] using h
        exact ⟨n, rfl, by rw [hnm]⟩
      · rintro ⟨k, hk, hb⟩
        cases hk
        cases hb
        simp [strictEqNum]
    | none => simp [strictEqNum]
  | str s => cases b <;> simp [strictEqNum]
  | undef => cases b <;> simp [strictEqNum]

/-- C3: for every pair of roles drawn from the enumerated role set, the role
check of `checkRoleGrantsPermissionForAction` grants permission if and only
if the caller's role is the top (admin) role or its numeric value is less
than or equal to the required role's numeric value. -/
theorem role_check_is_covers (r1 r2 : Nat) (h1 : r1 ∈ roleSet) (h2 : r2 ∈ roleSet)
    (rest : List RoleRow) :
    checkRoleGrantsPermissionForAction (⟨r1⟩ :: rest) r2 = .ok true ⟨r1⟩ ↔ Covers r1 r2 := by
  simp only [roleSet, List.mem_cons, List.mem_singleton, List.not_mem_nil, or_false] at h1 h2
  simp only [checkRoleGrantsPermissionForAction, Covers]
  rcases h1 with h | h | h <;> rcases h2 with h' | h' | h' <;> subst h <;> subst h' <;> decide

/-- Witness for C3 at the concrete pair (USER, ADMIN). -/
theorem role_check_is_covers_witness :
    checkRoleGrantsPermissionForAction (⟨Role.USER⟩ :: []) Role.ADMIN =
      .ok true ⟨Role.USER⟩ ↔ Covers Role.USER Role.ADMIN :=
  role_check_is_covers Role.USER Role.ADMIN (by decide) (by decide) []

/-- C7: an Action whose role metadata was never registered makes the pipeline
respond with the Internal Error outcome on every request, and its handler
never executes. -/
theorem unregistered_minRole_internal_error (meta : ActMeta) (hm : meta.minRole = none)
    (args : Args) (header : Option String) (jr : JwtResult) (roleRows : List RoleRow) :
    handlePermissions meta args header jr roleRows =
      .respond (responseInternalServerError "There is a misconfiguration problem on the server. Try again in a bit.") ∧
    handlePermissions meta args header jr roleRows ≠ .execute := by
  unfold handlePermissions
  rw [hm]
  exact ⟨rfl, by simp⟩

/-- Witness for C7 at a concrete unregistered Action and request. -/
theorem unregistered_minRole_internal_error_witness :
    handlePermissions ⟨none, some true⟩ .undef none (.err "x" "y") [] =
      .respond (responseInternalServerError "There is a misconfiguration problem on the server. Try again in a bit.") :=
  (unregistered_minRole_internal_error ⟨none, some true⟩ rfl .undef none (.err "x" "y") []).1

/-- C6: an Action registered at the unrestricted (EVERYONE) level executes
for every request state: the outcome is `execute` whatever the token header,
the verification primitive outcome and the role rows, so no token
extraction, verification, role lookup or ownership check influences it. -/
theorem everyone_short_circuit (meta : ActMeta) (hm : meta.minRole = some Role.EVERYONE)
    (args : Args) (header : Option String) (jr : JwtResult) (roleRows : List RoleRow) :
    handlePermissions meta args header jr roleRows = .execute := by
  unfold handlePermissions
  rw [hm]
  rfl

/-- Witness for C6 at a concrete EVERYONE Action, absent header and failing
verification primitive. -/
theorem everyone_short_circuit_witness :
    handlePermissions ⟨some Role.EVERYONE, some false⟩ .undef none (.err "boom" "") [] = .execute :=
  everyone_short_circuit ⟨some Role.EVERYONE, some false⟩ rfl .undef none (.err "boom" "") []

/-- C5: when the resolved Action's minimum role is registered and is not the
unrestricted level and the token header is absent, the pipeline responds 401
Unauthorised with the distinct missing-token reason, which coincides with
none of the malformed-token or expired-token reasons. -/
theorem missing_token_unauthorised (meta : ActMeta) (mr : Nat)
    (hm : meta.minRole = some mr) (hne : mr ≠ Role.EVERYONE)
    (args : Args) (jr : JwtResult) (roleRows : List RoleRow) :
    handlePermissions meta args none jr roleRows =
      .respond (responseUnauthorised "Missing an expected token.") ∧
    responseUnauthorised "Missing an expected token." ≠ responseUnauthorised "Invalid token." ∧
    responseUnauthorised "Missing an expected token." ≠
      responseUnauthorised "Invalid token. Expected data missing from payload." ∧
    responseUnauthorised "Missing an expected token." ≠
      responseUnauthorised "Invalid token. You may need to log in again." := by
  refine ⟨?_, by decide, by decide, by decide⟩
  unfold handlePermissions
  rw [hm]
  simp [tokenMissing, hne]

/-- Witness for C5 at the concrete `getUser` metadata. -/
theorem missing_token_unauthorised_witness :
    handlePermissions ⟨some Role.USER, some true⟩ .undef none (.err "x" "y") [] =
      .respond (responseUnauthorised "Missing an expected token.") :=
  (missing_token_unauthorised ⟨some Role.USER, some true⟩ Role.USER rfl (by decide)
    .undef (.err "x" "y") []).1

/-- A verified token whose payload id has valid format yields that id from
`getIdFromToken`. -/
lemma getIdFromToken_valid (subjectId : JSValue) (hfmt : isIdFormat subjectId = true) :
    getIdFromToken (verifyToken (.ok ⟨some subjectId⟩)) = .ok subjectId := by
  simp [verifyToken, getIdFromToken, hfmt]

/-- Pipeline reduction: for a non-everyone Action, a present header, a valid
token and a non-admin first role row, the outcome is decided by the role
check and the ownership check. -/
lemma handlePermissions_nonadmin_ok (meta : ActMeta) (mr : Nat)
    (hm : meta.minRole = some mr) (hne : mr ≠ Role.EVERYONE)
    (args : Args) (header : Option String) (hhdr : tokenMissing header = false)
    (subjectId : JSValue) (hfmt : isIdFormat subjectId = true)
    (role : RoleRow) (rest : List RoleRow) (hra : role.id ≠ Role.ADMIN)
    (b : Bool)
    (hchk : checkOwnershipGrantsPermissionForAction subjectId meta.hasOwner args = .ok b) :
    handlePermissions meta args header (.ok ⟨some subjectId⟩) (role :: rest) =
      if ((role.id == Role.ADMIN) || decide (role.id ≤ mr)) && b then .execute
      else .respond (responseForbidden "You do not have permission to do that.") := by
  have hmr99 : (mr == Role.EVERYONE) = false := by simpa using hne
  have hra' : (role.id == Role.ADMIN) = false := by simpa using hra
  unfold handlePermissions
  rw [hm]
  simp [hmr99, hhdr, getIdFromToken_valid subjectId hfmt,
    checkRoleGrantsPermissionForAction, hra', hchk]

/-- Pipeline reduction: same stage as above, when the ownership check raises
a `CodedError`. -/
lemma handlePermissions_nonadmin_coded (meta : ActMeta) (mr : Nat)
    (hm : meta.minRole = some mr) (hne : mr ≠ Role.EVERYONE)
    (args : Args) (header : Option String) (hhdr : tokenMissing header = false)
    (subjectId : JSValue) (hfmt : isIdFormat subjectId = true)
    (role : RoleRow) (rest : List RoleRow) (hra : role.id ≠ Role.ADMIN)
    (c : String)
    (hchk : checkOwnershipGrantsPermissionForAction subjectId meta.hasOwner args = .codedErr c) :
    handlePermissions meta args header (.ok ⟨some subjectId⟩) (role :: rest) =
      .respond (responseInternalServerError "Cannot verify ownership permissions.") := by
  have hmr99 : (mr == Role.EVERYONE) = false := by simpa using hne
  have hra' : (role.id == Role.ADMIN) = false := by simpa using hra
  unfold handlePermissions
  rw [hm]
  simp [hmr99, hhdr, getIdFromToken_valid subjectId hfmt,
    checkRoleGrantsPermissionForAction, hra', hchk]

/-- Pipeline reduction: same stage as above, when the ownership check raises
a plain error. -/
lemma handlePermissions_nonadmin_plain (meta : ActMeta) (mr : Nat)
    (hm : meta.minRole = some mr) (hne : mr ≠ Role.EVERYONE)
    (args : Args) (header : Option String) (hhdr : tokenMissing header = false)
    (subjectId : JSValue) (hfmt : isIdFormat subjectId = true)
    (role : RoleRow) (rest : List RoleRow) (hra : role.id ≠ Role.ADMIN)
    (hchk : checkOwnershipGrantsPermissionForAction subjectId meta.hasOwner args = .plainErr) :
    handlePermissions meta args header (.ok ⟨some subjectId⟩) (role :: rest) =
      .respond (responseInternalServerError "Error checking ownership permissions.") := by
  have hmr99 : (mr == Role.EVERYONE) = false := by simpa using hne
  have hra' : (role.id == Role.ADMIN) = false := by simpa using hra
  unfold handlePermissions
  rw [hm]
  simp [hmr99, hhdr, getIdFromToken_valid subjectId hfmt,
    checkRoleGrantsPermissionForAction, hra', hchk]

/-- Pipeline reduction: for a non-everyone Action, a present header, a valid
token and an admin first role row, the handler executes (ownership is never
consulted). -/
lemma handlePermissions_admin (meta : ActMeta) (mr : Nat)
    (hm : meta.minRole = some mr) (hne : mr ≠ Role.EVERYONE)
    (args : Args) (header : Option String) (hhdr : tokenMissing header = false)
    (subjectId : JSValue) (hfmt : isIdFormat subjectId = true)
    (role : RoleRow) (rest : List RoleRow) (hra : role.id = Role.ADMIN) :
    handlePermissions meta args header (.ok ⟨some subjectId⟩) (role :: rest) = .execute := by
  have hmr99 : (mr == Role.EVERYONE) = false := by simpa using hne
  unfold handlePermissions
  rw [hm]
  simp [hmr99, hhdr, getIdFromToken_valid subjectId hfmt,
    checkRoleGrantsPermissionForAction, hra]

/-- C1: for every registered Action with hasOwner = true, a request carrying
a valid token whose subject id differs (numerically) from the Action's id
argument is Forbidden whenever the first role row is not the top (admin)
role, while an admin subject is granted ownership unconditionally and
executes. -/
theorem owned_action_wrong_id_forbidden (e : RegEntry) (he : e ∈ registry)
    (hown : e.meta.hasOwner = some true)
    (fields : List (String × JSValue)) (v subjectId : JSValue)
    (hid : (Args.obj fields).getField "id" = some v)
    (hneq : parseIntJs subjectId ≠ parseIntJs v)
    (hfmt : isIdFormat subjectId = true)
    (header : Option String) (hhdr : tokenMissing header = false)
    (role : RoleRow) (rest : List RoleRow) :
    (role.id ≠ Role.ADMIN →
      handlePermissions e.meta (.obj fields) header (.ok ⟨some subjectId⟩) (role :: rest) =
        .respond (responseForbidden "You do not have permission to do that.")) ∧
    (role.id = Role.ADMIN →
      handlePermissions e.meta (.obj fields) header (.ok ⟨some subjectId⟩) (role :: rest) =
        .execute) := by
  have hchk : checkOwnershipGrantsPermissionForAction subjectId e.meta.hasOwner (.obj fields) =
      .ok false := by
    rw [hown]
    simp [checkOwnershipGrantsPermissionForAction, hid,
      strictEqNum_parseInt_ne subjectId v hneq]
  constructor
  · intro hra
    rcases registry_owner_minRole e he hown with hm | hm <;>
      rw [handlePermissions_nonadmin_ok e.meta _ hm (by decide) (.obj fields) header hhdr
        subjectId hfmt role rest hra false hchk] <;>
      simp
  · intro hra
    rcases registry_owner_minRole e he hown with hm | hm <;>
      exact handlePermissions_admin e.meta _ hm (by decide) (.obj fields) header hhdr
        subjectId hfmt role rest hra

/-- Witness for C1: a USER-role subject with id 3 requesting `getUser` for
id 9 is Forbidden. -/
theorem owned_action_wrong_id_forbidden_witness :
    handlePermissions ⟨some Role.USER, some true⟩ (.obj [("id", .str "9")]) (some "t")
      (.ok ⟨some (.num 3)⟩) [⟨Role.USER⟩] =
      .respond (responseForbidden "You do not have permission to do that.") :=
  (owned_action_wrong_id_forbidden ⟨"getUser", ⟨some Role.USER, some true⟩⟩ (by decide) rfl
    [("id", .str "9")] (.str "9") (.num 3) rfl (by decide) rfl (some "t") rfl
    ⟨Role.USER⟩ []).1 (by decide)

/-- C2 counterexample: a verified token can carry its subject id as the
string "3" (the development token route signs the raw path segment), which
coerces to the same numeric value 3 as the id argument "3"; the claim then
requires ownership to be granted, but the strict equality `id === parseInt(args.id)`
compares a string with a number, ownership is denied, and the owner-scoped
`getUser` request ends Forbidden. -/
theorem ownership_numeric_coercion_counterexample :
    parseIntJs (.str "3") = some 3 ∧
    parseIntJs (.str "3") = parseIntJs (.str "3") ∧
    checkOwnershipGrantsPermissionForAction (.str "3") (some true)
      (.obj [("id", .str "3")]) = .ok false ∧
    handlePermissions ⟨some Role.USER, some true⟩ (.obj [("id", .str "3")]) (some "t")
      (.ok ⟨some (.str "3")⟩) [⟨Role.USER⟩] =
      .respond (responseForbidden "You do not have permission to do that.") := by
  refine ⟨by decide, rfl, by decide, ?_⟩
  decide

/-- C2 amended: for an owner-scoped Action and a non-admin subject,
ownership is granted iff the args carry an id field whose `parseInt` value
is strictly equal — same JS type included — to the subject id, i.e. iff the
subject id is a number `n` and the args id parses to `n` (a string-typed
subject id never matches); and when the args lack an id field the pipeline
terminates with an Internal Server Error response, not a client 4xx. -/
theorem ownership_grant_characterisation (meta : ActMeta) (mr : Nat)
    (hm : meta.minRole = some mr) (hne : mr ≠ Role.EVERYONE)
    (hown : meta.hasOwner = some true)
    (subjectId : JSValue) (hfmt : isIdFormat subjectId = true)
    (header : Option String) (hhdr : tokenMissing header = false)
    (role : RoleRow) (rest : List RoleRow) (hra : role.id ≠ Role.ADMIN)
    (args : Args) :
    (∀ v, args.getField "id" = some v →
      (checkOwnershipGrantsPermissionForAction subjectId meta.hasOwner args = .ok true ↔
        ∃ n : Int, subjectId = .num n ∧ parseIntJs v = some n)) ∧
    (args.getField "id" = none →
      ∃ msg, handlePermissions meta args header (.ok ⟨some subjectId⟩) (role :: rest) =
        .respond (responseInternalServerError msg)) := by
  constructor
  · intro v hv
    rw [hown]
    cases args with
    | undef => simp [Args.getField] at hv
    | obj fs =>
      rw [← strictEqNum_eq_true_iff subjectId (parseIntJs v)]
      simp [checkOwnershipGrantsPermissionForAction, hv]
  · intro hnone
    cases args with
    | undef =>
      refine ⟨"Error checking ownership permissions.", ?_⟩
      exact handlePermissions_nonadmin_plain meta mr hm hne .undef header hhdr subjectId hfmt
        role rest hra (by rw [hown]; rfl)
    | obj fs =>
      refine ⟨"Cannot verify ownership permissions.", ?_⟩
      refine handlePermissions_nonadmin_coded meta mr hm hne (.obj fs) header hhdr subjectId hfmt
        role rest hra "KE111" ?_
      rw [hown]
      simp [checkOwnershipGrantsPermissionForAction, hnone]

/-- Witness for the amended C2: subject id as the number 3 with args id "3"
is granted ownership. -/
theorem ownership_grant_characterisation_witness :
    checkOwnershipGrantsPermissionForAction (.num 3) (some true)
      (.obj [("id", .str "3")]) = .ok true ↔
      ∃ n : Int, (JSValue.num 3) = .num n ∧ parseIntJs (.str "3") = some n :=
  (ownership_grant_characterisation ⟨some Role.USER, some true⟩ Role.USER rfl (by decide) rfl
    (.num 3) rfl (some "t") rfl ⟨Role.USER⟩ [] (by decide) (.obj [("id", .str "3")])).1
    (.str "3") rfl

/-- C4: a verification-primitive failure whose error name is neither of the
two expected rejection kinds is rethrown by `verifyToken` (never returned as
a rejection), and the pipeline maps it to the Internal Server Error outcome,
not to a 401; conversely every returned rejection carries one of the two
expected kinds. -/
theorem verify_unexpected_failure_propagates (name msg : String)
    (h1 : name ≠ "JsonWebTokenError") (h2 : name ≠ "TokenExpiredError")
    (meta : ActMeta) (mr : Nat) (hm : meta.minRole = some mr) (hne : mr ≠ Role.EVERYONE)
    (args : Args) (header : Option String) (hhdr : tokenMissing header = false)
    (roleRows : List RoleRow) :
    verifyToken (.err name msg) = .thrown name msg ∧
    handlePermissions meta args header (.err name msg) roleRows =
      .respond (responseInternalServerError "Error retrieving token information.") ∧
    (∀ jr r, verifyToken jr = .ret r → r.verified = false →
      r.rejectErrorType = some "JsonWebTokenError" ∨
      r.rejectErrorType = some "TokenExpiredError") := by
  have hthrown : verifyToken (.err name msg) = .thrown name msg := by
    simp [verifyToken, h1, h2]
  refine ⟨hthrown, ?_, ?_⟩
  · have hmr99 : (mr == Role.EVERYONE) = false := by simpa using hne
    unfold handlePermissions
    rw [hm]
    simp [hmr99, hhdr, hthrown, getIdFromToken]
  · intro jr r hret hv
    cases jr with
    | ok p =>
      simp [verifyToken] at hret
      rw [← hret] at hv
      simp at hv
    | err nm ms =>
      by_cases hj : nm = "JsonWebTokenError"
      · subst hj
        simp [verifyToken] at hret
        rw [← hret]
        exact Or.inl rfl
      · by_cases ht : nm = "TokenExpiredError"
        · subst ht
          simp [verifyToken] at hret
          rw [← hret]
          exact Or.inr rfl
        · simp [verifyToken, hj, ht] at hret

/-- Witness for C4 at a concrete misconfiguration-style failure. -/
theorem verify_unexpected_failure_propagates_witness :
    handlePermissions ⟨some Role.USER, some true⟩ .undef (some "t")
      (.err "NotBeforeError" "jwt not active") [] =
      .respond (responseInternalServerError "Error retrieving token information.") :=
  (verify_unexpected_failure_propagates "NotBeforeError" "jwt not active" (by decide) (by decide)
    ⟨some Role.USER, some true⟩ Role.USER rfl (by decide) .undef (some "t") rfl []).2.1

/-- C8: verifying a token issued for a subject id, before that token's
expiry, succeeds with `verified = true` and a payload carrying exactly that
subject id. -/
theorem token_round_trip (id : JSValue) (issuedAt now : Nat)
    (hbefore : now < issuedAt + KEBAPI_AUTH_TOKEN_EXPIRY_MS) :
    verifyTokenAt (getToken id issuedAt) now = .ret ⟨true, some ⟨some id⟩, none, none⟩ := by
  have h2 : ¬(issuedAt + KEBAPI_AUTH_TOKEN_EXPIRY_MS ≤ now) := Nat.not_le.mpr hbefore
  simp [verifyTokenAt, getToken, jwtSign, jwtVerify, verifyToken, h2]

/-- Witness for C8 at subject id 7, issued at instant 0, verified at 10. -/
theorem token_round_trip_witness :
    verifyTokenAt (getToken (.num 7) 0) 10 = .ret ⟨true, some ⟨some (.num 7)⟩, none, none⟩ :=
  token_round_trip (.num 7) 0 10 (by decide)

/-- C9: a request whose method and path match no routing-table entry — GET
/nonexistent/path for instance, under any method and environment — resolves
to the NotFound pseudo-Action, which is itself registered at the
unrestricted role, and whose response envelope carries code 404 and status
"Not Found". -/
theorem unmatched_route_not_found (dev : Bool) (method : String)
    (query : List (String × JSValue)) (postData : Args) (msg : String) :
    route dev method (splitPath "/nonexistent/path") query postData =
      ⟨"responseNotFound", .undef⟩ ∧
    registryLookup "responseNotFound" = some ⟨some Role.EVERYONE, some false⟩ ∧
    (responseNotFound msg).responseCode = 404 ∧
    (responseNotFound msg).responseStatus = "Not Found" := by
  refine ⟨?_, by decide, rfl, rfl⟩
  have hsegs : splitPath "/nonexistent/path" = ["nonexistent", "path"] := rfl
  rw [hsegs]
  have h1 : routeDevGet ["nonexistent", "path"] = none := rfl
  have h2 : routeGet ["nonexistent", "path"] query = none := rfl
  have h3 : routePost ["nonexistent", "path"] postData = none := rfl
  have h4 : routeDelete ["nonexistent", "path"] = none := rfl
  simp [route, h1, h2, h3, h4]

/-- A list of digit characters contains no newline, so splitting it at
newlines leaves it whole. -/
lemma splitOnChar_all_digits (cs : List Char) (h : cs.all Char.isDigit = true) :
    splitOnChar '\n' cs = [cs] := by
  induction cs with
  | nil => rfl
  | cons x xs ih =>
    simp only [List.all_cons, Bool.and_eq_true] at h
    have hx : x ≠ '\n' := by
      intro hxe
      rw [hxe] at h
      exact absurd h.1 (by decide)
    have hxs := ih h.2
    simp only [splitOnChar, hxs]
    simp [hx]

/-- C10: the id-format validator accepts every value of number type,
negatives included, and every all-digit string, the empty string included; a
verified token whose payload id is such a value passes the payload check in
`getIdFromToken`, and the pipeline proceeds to the role lookup (shown here
reaching the role-lookup 500, not any 401 rejection). -/
theorem isIdFormat_permissive (cs : List Char) (hcs : cs.all Char.isDigit = true) :
    (∀ n : Int, isIdFormat (.num n) = true) ∧
    isIdFormat (.str ⟨cs⟩) = true ∧
    isIdFormat (.str "") = true ∧
    getIdFromToken (verifyToken (.ok ⟨some (.str "")⟩)) = .ok (.str "") ∧
    getIdFromToken (verifyToken (.ok ⟨some (.num (-5))⟩)) = .ok (.num (-5)) ∧
    handlePermissions ⟨some Role.USER, some true⟩ (.obj [("id", .str "")]) (some "t")
      (.ok ⟨some (.str "")⟩) [] =
      .respond (responseInternalServerError "Error checking role permissions.") := by
  refine ⟨fun n => rfl, ?_, by decide, by decide, by decide, by decide⟩
  show (splitOnChar '\n' (String.mk cs).data).any (fun l => l.all Char.isDigit) = true
  rw [show (String.mk cs).data = cs from rfl, splitOnChar_all_digits cs hcs]
  simp [hcs]

/-- Witness for C10 at the concrete digit string "42". -/
theorem isIdFormat_permissive_witness :
    isIdFormat (.str ⟨['4', '2']⟩) = true :=
  (isIdFormat_permissive ['4', '2'] (by decide)).2.1
